import Mathlib

/-!
Shallow embedding of the DocsGPT client-side state layer:
`src/frontend/js/stores.js` (SessionStore, DocumentStore, ChatStore) and
`src/frontend/js/storage.js` (the persistence codec).

Modelling conventions:
* A JS `Map` is an association list `List (String × α)`; `Map.get` is `mget`
  and `Map.set` is `mset` (replace-in-place when the key exists, append
  otherwise — JS maps preserve insertion order).
* JS `null`/`undefined` on a field is `Option.none`.
* JS truthiness on a string field: `""`, `null` and `undefined` are falsy,
  every other string is truthy (`truthyStr` / `truthyOptStr` below).  A JS
  object (e.g. a `metadata` record or a `File`) is always truthy.
* `Date.now()` is threaded in as an explicit `now : Nat` parameter.
* The `localStorage` slot for one entity family is an `Option` of a stored
  value; `none` means the key is absent.  A stored value is either
  `malformed` (a string `JSON.parse` throws on) or parsed data whose
  top-level shape mirrors what the code inspects: an optional numeric
  `version` tag and an optional entries array (`none` models a missing or
  non-array field).  Entry payloads are typed with the canonical shapes the
  repository's own `save` functions write, since those are the only writers
  in the program; the `state` field is one of the five enum strings.
-/

namespace DocsGPT

/-- JS `Map.get`: first binding for the key, if any. -/
def mget {α : Type} (m : List (String × α)) (k : String) : Option α :=
  (m.find? (fun p => p.1 == k)).map Prod.snd

/-- JS `Map.set`: overwrite in place if the key is present, else append. -/
def mset {α : Type} (m : List (String × α)) (k : String) (v : α) :
    List (String × α) :=
  if (m.find? (fun p => p.1 == k)).isSome then
    m.map (fun p => if p.1 == k then (k, v) else p)
  else
    m ++ [(k, v)]

/-- JS string truthiness: only the empty string is falsy. -/
def truthyStr (s : String) : Bool := s ≠ ""

/-- JS truthiness of a nullable string field. -/
def truthyOptStr : Option String → Bool
  | none => false
  | some s => truthyStr s

/-- `stores.js` lines 5-11: the authoritative document state enum. -/
inductive DocumentState where
  | UPLOADED
  | PARSING
  | PARSE_FAILED
  | PARSED
  | REQUIRES_REUPLOAD
  deriving DecidableEq, Repr

/-- `stores.js` lines 13-17: session states. -/
inductive SessionState where
  | CREATED
  | ACTIVE
  | ARCHIVED
  deriving DecidableEq, Repr

/-- The observable part of a browser `File` object used by the stores
(`file.name`, `file.size`, `file.type`); the raw bytes never matter to the
state layer. -/
structure FileData where
  name : String
  size : Nat
  type : String
  deriving DecidableEq, Repr

/-- Document metadata as built in `stores.js` `addDocument`. -/
structure Metadata where
  name : String
  size : Nat
  type : String
  uploadedAt : Nat
  deriving DecidableEq, Repr

/-- In-memory document record (`stores.js` lines 94-107). -/
structure Document where
  docId : String
  state : DocumentState
  metadata : Metadata
  file : Option FileData
  parsedArtifactId : Option String
  parseError : Option String
  requiresReupload : Bool
  deriving DecidableEq, Repr

/-- Canonical persisted document record (`storage.js` lines 45-59). -/
structure SavedDoc where
  docId : String
  state : DocumentState
  metadata : Metadata
  parsedArtifactId : Option String
  parseError : Option String
  deriving DecidableEq, Repr

/-- In-memory session record (`stores.js` lines 28-35). -/
structure Session where
  sessionId : String
  name : String
  state : SessionState
  activeDocumentIds : List String
  activeDocumentId : Option String
  createdAt : Nat
  deriving DecidableEq, Repr

/-- Canonical persisted session record (`storage.js` lines 18-27).  Note
that `saveSessions` does NOT include `activeDocumentId`. -/
structure SavedSession where
  sessionId : String
  name : String
  state : SessionState
  activeDocumentIds : List String
  createdAt : Nat
  deriving DecidableEq, Repr

/-- One chat message (`stores.js` lines 297-303). -/
structure ChatMessage where
  id : String
  role : String
  content : String
  evidence : Option String
  createdAt : Nat
  deriving DecidableEq, Repr

/-- The `docsgpt-documents-v2` localStorage value, as `loadDocuments`
inspects it. -/
inductive StoredDocs where
  | malformed
  | data (version : Option Nat) (documents : Option (List (String × SavedDoc)))
  deriving DecidableEq, Repr

/-- The `docsgpt-sessions-v2` localStorage value. -/
inductive StoredSessions where
  | malformed
  | data (version : Option Nat)
      (sessions : Option (List (String × SavedSession)))
      (activeSessionId : Option String)
  deriving DecidableEq, Repr

/-- The `docsgpt-messages-v2` localStorage value. -/
inductive StoredMsgs where
  | malformed
  | data (version : Option Nat)
      (sessionMessages : Option (List (String × List ChatMessage)))
  deriving DecidableEq, Repr

/-- `storage.js` line 13. -/
def STORAGE_VERSION : Nat := 2

/-- The version guard `!data.version || data.version < STORAGE_VERSION`
(`storage.js` lines 97, 137, 189): true when the tag is absent, falsy
(zero), or older than the current schema version. -/
def versionBad : Option Nat → Bool
  | none => true
  | some n => n == 0 || n < STORAGE_VERSION

/-- Canonical projection used by `saveDocuments` (`storage.js` 45-59). -/
def canonicalDoc (d : Document) : SavedDoc :=
  { docId := d.docId
    state := d.state
    metadata := d.metadata
    parsedArtifactId := d.parsedArtifactId
    parseError := d.parseError }

/-- `storage.js` `saveDocuments`: canonical entries plus the version tag. -/
def saveDocuments (documents : List (String × Document)) : StoredDocs :=
  .data (some STORAGE_VERSION)
    (some (documents.map (fun p => (p.1, canonicalDoc p.2))))

/-- Canonical projection used by `saveSessions` (`storage.js` 18-27). -/
def canonicalSession (s : Session) : SavedSession :=
  { sessionId := s.sessionId
    name := s.name
    state := s.state
    activeDocumentIds := s.activeDocumentIds
    createdAt := s.createdAt }

/-- `storage.js` `saveSessions`. -/
def saveSessions (sessions : List (String × Session))
    (activeSessionId : Option String) : StoredSessions :=
  .data (some STORAGE_VERSION)
    (some (sessions.map (fun p => (p.1, canonicalSession p.2))))
    activeSessionId

/-- `storage.js` `saveMessages`: the per-session entries are stored as-is. -/
def saveMessages (sessionMessages : List (String × List ChatMessage)) :
    StoredMsgs :=
  .data (some STORAGE_VERSION) (some sessionMessages)

/-- The two pessimistic repairs in `loadDocuments` (`storage.js` 153-166):
a doc claiming `PARSED` without a truthy artifact id is downgraded to
`UPLOADED`; a doc found in `PARSING` becomes `PARSE_FAILED` with the fixed
interrupted-by-reload error. -/
def repairSavedDoc (d : SavedDoc) : SavedDoc :=
  let d :=
    if d.state = .PARSED ∧ truthyOptStr d.parsedArtifactId = false then
      { d with state := .UPLOADED, parsedArtifactId := none }
    else d
  if d.state = .PARSING then
    { d with state := .PARSE_FAILED
             parseError := some "Parsing interrupted by page reload" }
  else d

/-- Per-entry validation in `loadDocuments` (`storage.js` 148-151): the
entry key, the record and its `docId`, `state`, `metadata` must be truthy.
In the model the record and its `metadata` are structures (always truthy)
and `state` is one of the five non-empty enum strings, so only the two
string ids can fail the check. -/
def validateDocEntry (p : String × SavedDoc) : Option (String × SavedDoc) :=
  if truthyStr p.1 && truthyStr p.2.docId then
    some (p.1, repairSavedDoc p.2)
  else
    none

/-- The `try` body of `loadDocuments` (`storage.js` 130-174).  An `error`
models a thrown exception (`JSON.parse` on a malformed string).  The result
carries the value returned to the caller (only its `documents` field is ever
consumed) together with the substrate slot after side effects
(`clearDocuments` on an outdated version removes it). -/
def loadDocumentsBody :
    Option StoredDocs →
      Except String (Option (List (String × SavedDoc)) × Option StoredDocs)
  | none => .ok (none, none)
  | some .malformed => .error "SyntaxError"
  | some (.data v ds) =>
    if versionBad v then .ok (none, none)
    else
      match ds with
      | none => .ok (none, some (.data v none))
      | some docs =>
        .ok (some (docs.filterMap validateDocEntry), some (.data v (some docs)))

/-- `loadDocuments` with its surrounding `try`/`catch`: a thrown exception
is caught, logged, and turned into `null` with the slot untouched. -/
def loadDocuments (slot : Option StoredDocs) :
    Option (List (String × SavedDoc)) × Option StoredDocs :=
  match loadDocumentsBody slot with
  | .ok r => r
  | .error _ => (none, slot)

/-- Per-entry validation in `loadSessions` (`storage.js` 109-116): key,
record, `sessionId`, `name`, `state` truthy and `activeDocumentIds` an
array.  In the model only the string fields can fail. -/
def validSessionEntry (p : String × SavedSession) : Bool :=
  truthyStr p.1 && truthyStr p.2.sessionId && truthyStr p.2.name

/-- The `try` body of `loadSessions` (`storage.js` 89-122). -/
def loadSessionsBody :
    Option StoredSessions →
      Except String
        (Option (List (String × SavedSession) × Option String) ×
          Option StoredSessions)
  | none => .ok (none, none)
  | some .malformed => .error "SyntaxError"
  | some (.data v ss a) =>
    if versionBad v then .ok (none, none)
    else
      match ss with
      | none => .ok (none, some (.data v none a))
      | some sessions =>
        .ok (some (sessions.filter validSessionEntry, a),
             some (.data v (some sessions) a))

/-- `loadSessions` with its `try`/`catch`. -/
def loadSessions (slot : Option StoredSessions) :
    Option (List (String × SavedSession) × Option String) ×
      Option StoredSessions :=
  match loadSessionsBody slot with
  | .ok r => r
  | .error _ => (none, slot)

/-- The `try` body of `loadMessages` (`storage.js` 182-206): no per-entry
validation, just the version and array checks. -/
def loadMessagesBody :
    Option StoredMsgs →
      Except String
        (Option (List (String × List ChatMessage)) × Option StoredMsgs)
  | none => .ok (none, none)
  | some .malformed => .error "SyntaxError"
  | some (.data v ms) =>
    if versionBad v then .ok (none, none)
    else
      match ms with
      | none => .ok (none, some (.data v none))
      | some msgs => .ok (some msgs, some (.data v (some msgs)))

/-- `loadMessages` with its `try`/`catch`. -/
def loadMessages (slot : Option StoredMsgs) :
    Option (List (String × List ChatMessage)) × Option StoredMsgs :=
  match loadMessagesBody slot with
  | .ok r => r
  | .error _ => (none, slot)

/-- The outcome of the backend `/parse` call as `parseDocument` sees it:
`ok` carries `result.documentId` (the backend always echoes back the
non-empty id it was given, `server.js` lines 47-70); `err` covers a network
failure, a non-ok response, or a thrown error, all funnelled into the same
`catch` block. -/
inductive BackendReply where
  | ok (documentId : String)
  | err (msg : String)
  deriving DecidableEq, Repr

namespace DocumentStore

/-- The `DocumentStore` instance state: its in-memory map plus the
`localStorage` slot its `persist` writes and its `restore` reads. -/
structure State where
  documents : List (String × Document)
  stored : Option StoredDocs
  deriving DecidableEq, Repr

/-- `stores.js` `DocumentStore.persist` (line 253). -/
def persist (st : State) : State :=
  { st with stored := some (saveDocuments st.documents) }

/-- `stores.js` `addDocument` (lines 92-112). -/
def addDocument (st : State) (now : Nat) (file : FileData) : State × String :=
  let docId := Nat.repr now
  let document : Document :=
    { docId := docId
      state := .UPLOADED
      metadata :=
        { name := file.name
          size := file.size
          type := file.type
          uploadedAt := now }
      file := some file
      parsedArtifactId := none
      parseError := none
      requiresReupload := false }
  (persist { st with documents := mset st.documents docId document }, docId)

/-- `stores.js` `reuploadDocument` (lines 115-127). -/
def reuploadDocument (st : State) (docId : String) (file : FileData) :
    State × Bool :=
  match mget st.documents docId with
  | none => (st, false)
  | some doc =>
    let doc :=
      { doc with
          file := some file
          state := .UPLOADED
          parseError := none
          requiresReupload := false }
    (persist { st with documents := mset st.documents docId doc }, true)

/-- `stores.js` `isQueryable` (lines 134-138): true iff the document exists,
is `PARSED` and has a non-null artifact id. -/
def isQueryable (documents : List (String × Document)) (docId : String) :
    Bool :=
  match mget documents docId with
  | none => false
  | some doc => doc.state == .PARSED && doc.parsedArtifactId.isSome

/-- The synchronous prefix of `parseDocument` (`stores.js` 165-182), up to
and including the transition into `PARSING`.  The boolean tells whether
parsing actually started (i.e. whether the async part will run). -/
def parseStart (st : State) (docId : String) : State × Bool :=
  match mget st.documents docId with
  | none => (st, false)
  | some doc =>
    if doc.file.isNone then
      let m := mset st.documents docId { doc with state := .REQUIRES_REUPLOAD }
      (persist { st with documents := m }, false)
    else if doc.state ≠ .UPLOADED then
      (st, false)
    else
      let m := mset st.documents docId
        { doc with state := .PARSING, parseError := none }
      (persist { st with documents := m }, true)

/-- The asynchronous continuation of `parseDocument` (`stores.js` 184-211),
applied to whatever document the map currently holds for the id (the stale
overwrite race the spec notes in §5/§9 — the completion does not re-check
the state). -/
def parseComplete (st : State) (docId : String) (reply : BackendReply) :
    State × Bool :=
  match mget st.documents docId with
  | none => (st, false)
  | some doc =>
    match reply with
    | .ok aid =>
      let m := mset st.documents docId
        { doc with parsedArtifactId := some aid, state := .PARSED }
      (persist { st with documents := m }, true)
    | .err msg =>
      let m := mset st.documents docId
        { doc with state := .PARSE_FAILED, parseError := some msg }
      (persist { st with documents := m }, false)

/-- The whole of `parseDocument` run to completion with a given backend
reply: the synchronous prefix and, when parsing started, the continuation. -/
def parseDocument (st : State) (docId : String) (reply : BackendReply) :
    State × Bool :=
  let (st1, started) := parseStart st docId
  if started then parseComplete st1 docId reply else (st1, false)

/-- The per-record reconstruction in `DocumentStore.restore` (`stores.js`
260-281): rebuild the document with a null file, then apply the two honest
downgrades (`PARSED` with no file, and `PARSING`, both to
`REQUIRES_REUPLOAD`). -/
def restoredDoc (sd : SavedDoc) : Document :=
  let d : Document :=
    { docId := sd.docId
      state := sd.state
      metadata := sd.metadata
      file := none
      parsedArtifactId := sd.parsedArtifactId
      parseError := sd.parseError
      requiresReupload := false }
  let d :=
    if d.state = .PARSED ∧ d.file.isNone then
      { d with state := .REQUIRES_REUPLOAD }
    else d
  if d.state = .PARSING then { d with state := .REQUIRES_REUPLOAD } else d

/-- `stores.js` `DocumentStore.restore` (lines 257-284): load via the codec,
then `set` each repaired record into the in-memory map. -/
def restore (st : State) : State :=
  match loadDocuments st.stored with
  | (none, slot) => { st with stored := slot }
  | (some docs, slot) =>
    { st with
        stored := slot
        documents :=
          docs.foldl (fun m p => mset m p.1 (restoredDoc p.2)) st.documents }

/-- One atomic step of the Document Store, for reachability arguments:
the operations of the claim plus the split async completion of
`parseDocument`.  `restore` reads the store's own substrate slot. -/
inductive Op where
  | add (now : Nat) (file : FileData)
  | reupload (docId : String) (file : FileData)
  | parseStart (docId : String)
  | parseComplete (docId : String) (reply : BackendReply)
  | restore
  deriving DecidableEq, Repr

/-- Apply one operation. -/
def applyOp (st : State) : Op → State
  | .add now file => (addDocument st now file).1
  | .reupload docId file => (reuploadDocument st docId file).1
  | .parseStart docId => (parseStart st docId).1
  | .parseComplete docId reply => (parseComplete st docId reply).1
  | .restore => restore st

/-- A fresh store (`stores.js` constructor, empty substrate). -/
def init : State := { documents := [], stored := none }

/-- Run a sequence of operations from a fresh store. -/
def run (ops : List Op) : State := ops.foldl applyOp init

end DocumentStore

namespace SessionStore

/-- The `SessionStore` instance state plus its `localStorage` slot. -/
structure State where
  sessions : List (String × Session)
  activeSessionId : Option String
  stored : Option StoredSessions
  deriving DecidableEq, Repr

/-- `stores.js` `SessionStore.persist` (line 71). -/
def persist (st : State) : State :=
  { st with stored := some (saveSessions st.sessions st.activeSessionId) }

/-- `stores.js` `createSession` (lines 26-41). -/
def createSession (st : State) (now : Nat) (name : String) : State × String :=
  let sessionId := Nat.repr now
  let session : Session :=
    { sessionId := sessionId
      name := name
      state := .ACTIVE
      activeDocumentIds := []
      activeDocumentId := none
      createdAt := now }
  (persist
    { st with
        sessions := mset st.sessions sessionId session
        activeSessionId := some sessionId },
   sessionId)

/-- `stores.js` `setActiveSession` (lines 47-52). -/
def setActiveSession (st : State) (sessionId : String) : State :=
  if (mget st.sessions sessionId).isSome then
    persist { st with activeSessionId := some sessionId }
  else st

/-- `stores.js` `addDocumentToSession` (lines 54-61): append the id if new
and auto-select it as the active document. -/
def addDocumentToSession (st : State) (sessionId docId : String) : State :=
  match mget st.sessions sessionId with
  | none => st
  | some session =>
    if docId ∈ session.activeDocumentIds then st
    else
      let session :=
        { session with
            activeDocumentIds := session.activeDocumentIds ++ [docId]
            activeDocumentId := some docId }
      persist { st with sessions := mset st.sessions sessionId session }

/-- `stores.js` `setActiveDocument` (lines 63-69): a no-op unless the id is
already a member of the session's document list. -/
def setActiveDocument (st : State) (sessionId docId : String) : State :=
  match mget st.sessions sessionId with
  | none => st
  | some session =>
    if docId ∈ session.activeDocumentIds then
      let m := mset st.sessions sessionId
        { session with activeDocumentId := some docId }
      persist { st with sessions := m }
    else st

/-- The record `SessionStore.restore` puts in the map: the loaded canonical
record, which carries no `activeDocumentId` property at all (reads of the
missing property give `undefined`, modelled as `none`). -/
def sessionOfSaved (ss : SavedSession) : Session :=
  { sessionId := ss.sessionId
    name := ss.name
    state := ss.state
    activeDocumentIds := ss.activeDocumentIds
    activeDocumentId := none
    createdAt := ss.createdAt }

/-- `stores.js` `SessionStore.restore` (lines 75-83). -/
def restore (st : State) : State :=
  match loadSessions st.stored with
  | (none, slot) => { st with stored := slot }
  | (some (sessions, activeId), slot) =>
    { st with
        stored := slot
        sessions :=
          sessions.foldl (fun m p => mset m p.1 (sessionOfSaved p.2)) st.sessions
        activeSessionId := activeId }

/-- One atomic Session Store operation, for reachability arguments. -/
inductive Op where
  | create (now : Nat) (name : String)
  | setActiveSession (sessionId : String)
  | addDocumentToSession (sessionId docId : String)
  | setActiveDocument (sessionId docId : String)
  | restore
  deriving DecidableEq, Repr

/-- Apply one operation. -/
def applyOp (st : State) : Op → State
  | .create now name => (createSession st now name).1
  | .setActiveSession sid => setActiveSession st sid
  | .addDocumentToSession sid did => addDocumentToSession st sid did
  | .setActiveDocument sid did => setActiveDocument st sid did
  | .restore => restore st

/-- A fresh store. -/
def init : State := { sessions := [], activeSessionId := none, stored := none }

/-- Run a sequence of operations from a fresh store. -/
def run (ops : List Op) : State := ops.foldl applyOp init

end SessionStore

namespace ChatStore

/-!
The Chat Store hands the caller a JS array.  To state the defensive-copy
contract the embedding makes array aliasing explicit: a heap maps array
references (indices) to contents, the store's `sessionMessages` maps a
session id to the reference of its store-owned log, and `getMessages`
allocates a fresh reference holding a copy (`[...arr]`).  Mutating the
returned array is then `heapWrite` at the returned reference.
-/

/-- Read an array's contents (out-of-range reads never occur for valid
references). -/
def heapRead (heap : List (List ChatMessage)) (r : Nat) : List ChatMessage :=
  heap.getD r []

/-- Overwrite an array's contents in place (models arbitrary caller
mutation of an array they hold a reference to). -/
def heapWrite (heap : List (List ChatMessage)) (r : Nat)
    (l : List ChatMessage) : List (List ChatMessage) :=
  heap.set r l

/-- Allocate a fresh array. -/
def alloc (heap : List (List ChatMessage)) (l : List ChatMessage) :
    Nat × List (List ChatMessage) :=
  (heap.length, heap ++ [l])

/-- The `ChatStore` instance state plus its `localStorage` slot. -/
structure State where
  sessionMessages : List (String × Nat)
  heap : List (List ChatMessage)
  isSending : Bool
  stored : Option StoredMsgs
  deriving DecidableEq, Repr

/-- `stores.js` `ChatStore.persist` (lines 323-326): snapshot every
session's log contents. -/
def persist (st : State) : State :=
  let snapshot := st.sessionMessages.map (fun p => (p.1, heapRead st.heap p.2))
  { st with stored := some (saveMessages snapshot) }

/-- `stores.js` `addMessage` (lines 294-312): `null` session id is refused;
otherwise a timestamped message is pushed onto the session's log (created
empty first when absent) and the store persists. -/
def addMessage (st : State) (sessionId role content : String)
    (evidence : Option String) (now : Nat) : State × Option ChatMessage :=
  if sessionId = "" then (st, none)
  else
    let message : ChatMessage :=
      { id := Nat.repr now
        role := role
        content := content
        evidence := evidence
        createdAt := now }
    let (st1, r) :=
      match mget st.sessionMessages sessionId with
      | some r => (st, r)
      | none =>
        let (r, heap) := alloc st.heap []
        ({ st with heap := heap
                   sessionMessages := mset st.sessionMessages sessionId r },
         r)
    let st2 :=
      { st1 with heap := heapWrite st1.heap r (heapRead st1.heap r ++ [message]) }
    (persist st2, some message)

/-- `stores.js` `getMessages` (lines 314-317): returns a freshly allocated
array — `[]` for a falsy session id or an absent log, else a spread copy of
the store-owned log.  The result is the store (with the new allocation) and
the returned array's reference. -/
def getMessages (st : State) (sessionId : String) : State × Nat :=
  let contents :=
    if sessionId = "" then []
    else ((mget st.sessionMessages sessionId).map (heapRead st.heap)).getD []
  let (r, heap) := alloc st.heap contents
  ({ st with heap := heap }, r)

/-- The store-owned log for a session as a later `getMessages` would report
it: the contents behind the store's own reference, or `[]`. -/
def msgLog (st : State) (sessionId : String) : List ChatMessage :=
  if sessionId = "" then []
  else ((mget st.sessionMessages sessionId).map (heapRead st.heap)).getD []

/-- Every store-owned array reference points into the heap.  Holds for
every store the program can build, since references are only created by
`alloc`. -/
def WF (st : State) : Prop :=
  ∀ p ∈ st.sessionMessages, p.2 < st.heap.length

/-- A fresh store. -/
def init : State :=
  { sessionMessages := [], heap := [], isSending := false, stored := none }

end ChatStore

/-! Concrete fixtures used to exercise the model at specific inputs. -/

/-- A small plain-text upload. -/
def fileA : FileData := { name := "a.txt", size := 3, type := "text/plain" }

/-- Metadata of `fileA` as `addDocument` would record it at time 5. -/
def metaA : Metadata := { name := "a.txt", size := 3, type := "text/plain", uploadedAt := 5 }

/-- A document that failed parsing but still holds its file handle. -/
def docRetry : Document :=
  { docId := "1", state := .PARSE_FAILED, metadata := metaA, file := some fileA,
    parsedArtifactId := none, parseError := some "Parse failed",
    requiresReupload := false }

/-- A store holding only `docRetry`. -/
def stRetry : DocumentStore.State := { documents := [("1", docRetry)], stored := none }

/-- A successfully parsed document whose file handle is absent. -/
def docParsedNoFile : Document :=
  { docId := "1", state := .PARSED, metadata := metaA, file := none,
    parsedArtifactId := some "a1", parseError := none, requiresReupload := false }

/-- A store holding only `docParsedNoFile`. -/
def stParsedNoFile : DocumentStore.State :=
  { documents := [("1", docParsedNoFile)], stored := none }

/-- An upload at time 7 followed by a successful parse. -/
def opsA : List DocumentStore.Op :=
  [.add 7 fileA, .parseStart "7", .parseComplete "7" (.ok "a1")]

/-- The document `opsA` produces. -/
def docA : Document :=
  { docId := "7", state := .PARSED,
    metadata := { name := "a.txt", size := 3, type := "text/plain", uploadedAt := 7 },
    file := some fileA, parsedArtifactId := some "a1", parseError := none,
    requiresReupload := false }

/-- Create a session at time 3 and add a document to it. -/
def opsS : List SessionStore.Op :=
  [.create 3 "Work", .addDocumentToSession "3" "d1"]

/-- The session `opsS` produces. -/
def sessA : Session :=
  { sessionId := "3", name := "Work", state := .ACTIVE,
    activeDocumentIds := ["d1"], activeDocumentId := some "d1", createdAt := 3 }

/-- A session with an active document, for the round-trip counterexample. -/
def sessB : Session :=
  { sessionId := "s1", name := "Work", state := .ACTIVE,
    activeDocumentIds := ["d1"], activeDocumentId := some "d1", createdAt := 7 }

/-- A document persisted mid-parse. -/
def docMidParse : Document :=
  { docId := "2", state := .PARSING, metadata := metaA, file := some fileA,
    parsedArtifactId := none, parseError := none, requiresReupload := false }

/-- A fully parsed document with a live file handle. -/
def docParsedLive : Document :=
  { docId := "3", state := .PARSED, metadata := metaA, file := some fileA,
    parsedArtifactId := some "a1", parseError := none, requiresReupload := false }

/-- A known document with no file handle, in `UPLOADED`. -/
def docNoFile : Document :=
  { docId := "4", state := .UPLOADED, metadata := metaA, file := none,
    parsedArtifactId := none, parseError := none, requiresReupload := false }

/-- A chat message fixture. -/
def msgHi : ChatMessage :=
  { id := "10", role := "user", content := "hi", evidence := none, createdAt := 10 }

/-! Lemmas about the JS-map model. -/

theorem mget_nil {α : Type} (k : String) : mget ([] : List (String × α)) k = none :=
  rfl

theorem mset_of_mget_none {α : Type} {m : List (String × α)} {k : String}
    (v : α) (h : mget m k = none) : mset m k v = m ++ [(k, v)] := by
  unfold mget at h
  rw [Option.map_eq_none'] at h
  unfold mset
  simp [h]

theorem mget_append {α : Type} (m₁ m₂ : List (String × α)) (k : String) :
    mget (m₁ ++ m₂) k = (mget m₁ k).or (mget m₂ k) := by
  unfold mget
  rw [List.find?_append]
  cases m₁.find? (fun p => p.1 == k) <;> simp

theorem mget_singleton_ne {α : Type} {k k' : String} (v : α) (h : k ≠ k') :
    mget [(k, v)] k' = none := by
  unfold mget
  have : (k == k') = false := by simpa using h
  simp [List.find?, this]

theorem mget_map_overwrite {α : Type} (k : String) (v : α) :
    ∀ m : List (String × α), (m.find? (fun p => p.1 == k)).isSome = true →
      mget (m.map (fun p => if p.1 == k then (k, v) else p)) k = some v := by
  intro m
  induction m with
  | nil =>
    intro h
    simp at h
  | cons hd tl ih =>
    intro h
    rw [List.find?_cons] at h
    by_cases hk : (hd.1 == k) = true
    · simp only [mget, List.map_cons, if_pos hk, List.find?_cons]
      simp
    · have h' : (tl.find? (fun p => p.1 == k)).isSome = true := by
        simpa [hk] using h
      have hres := ih h'
      simp only [mget, List.map_cons, if_neg hk, List.find?_cons] at hres ⊢
      simpa [hk] using hres

theorem mget_mset_self {α : Type} (m : List (String × α)) (k : String) (v : α) :
    mget (mset m k v) k = some v := by
  unfold mset
  by_cases h : (m.find? (fun p => p.1 == k)).isSome
  · rw [if_pos h]
    exact mget_map_overwrite k v m h
  · rw [if_neg h]
    have hnone : m.find? (fun p => p.1 == k) = none := by
      cases hm : m.find? (fun p => p.1 == k) with
      | none => rfl
      | some q => rw [hm] at h; simp at h
    unfold mget
    rw [List.find?_append, hnone]
    simp

theorem mem_mset {α : Type} {m : List (String × α)} {k : String} {v : α}
    {p : String × α} (h : p ∈ mset m k v) : p ∈ m ∨ p = (k, v) := by
  unfold mset at h
  split at h
  · rcases List.mem_map.mp h with ⟨q, hq, hfq⟩
    by_cases hk : (q.1 == k) = true
    · right
      rw [if_pos hk] at hfq
      exact hfq.symm
    · left
      rw [if_neg hk] at hfq
      exact hfq ▸ hq
  · rcases List.mem_append.mp h with h' | h'
    · exact Or.inl h'
    · right
      simpa using h'

theorem mem_foldl_mset {α β : Type} (f : β → α) :
    ∀ (l : List (String × β)) (m₀ : List (String × α)) (p : String × α),
      p ∈ l.foldl (fun m q => mset m q.1 (f q.2)) m₀ →
      p ∈ m₀ ∨ ∃ q ∈ l, p = (q.1, f q.2) := by
  intro l
  induction l with
  | nil =>
    intro m₀ p h
    exact Or.inl h
  | cons hd tl ih =>
    intro m₀ p h
    rcases ih _ p h with h' | ⟨q, hq, hpq⟩
    · rcases mem_mset h' with h'' | h''
      · exact Or.inl h''
      · exact Or.inr ⟨hd, List.mem_cons_self hd tl, h''⟩
    · exact Or.inr ⟨q, List.mem_cons_of_mem hd hq, hpq⟩

theorem foldl_mset_of_fresh {α β : Type} (f : β → α) :
    ∀ (l : List (String × β)) (m₀ : List (String × α)),
      (∀ q ∈ l, mget m₀ q.1 = none) →
      (l.map Prod.fst).Nodup →
      l.foldl (fun m q => mset m q.1 (f q.2)) m₀ =
        m₀ ++ l.map (fun q => (q.1, f q.2)) := by
  intro l
  induction l with
  | nil =>
    intro m₀ _ _
    simp
  | cons hd tl ih =>
    intro m₀ hfresh hnodup
    have hhd : mget m₀ hd.1 = none := hfresh hd (List.mem_cons_self hd tl)
    rw [List.foldl_cons, mset_of_mget_none (f hd.2) hhd]
    have hnodup' : (tl.map Prod.fst).Nodup := by
      rw [List.map_cons, List.nodup_cons] at hnodup
      exact hnodup.2
    have hne : ∀ q ∈ tl, hd.1 ≠ q.1 := by
      intro q hq hEq
      rw [List.map_cons, List.nodup_cons] at hnodup
      exact hnodup.1 (hEq ▸ List.mem_map_of_mem Prod.fst hq)
    have hfresh' : ∀ q ∈ tl, mget (m₀ ++ [(hd.1, f hd.2)]) q.1 = none := by
      intro q hq
      rw [mget_append, hfresh q (List.mem_cons_of_mem hd hq),
        mget_singleton_ne (f hd.2) (hne q hq)]
      rfl
    rw [ih _ hfresh' hnodup', List.append_assoc]
    rfl

theorem filterMap_map_eq_map {α β γ : Type} (g : β → Option γ) (f : α → β)
    (f' : α → γ) :
    ∀ l : List α, (∀ x ∈ l, g (f x) = some (f' x)) →
      List.filterMap g (l.map f) = l.map f' := by
  intro l
  induction l with
  | nil =>
    intro _
    rfl
  | cons hd tl ih =>
    intro h
    rw [List.map_cons, List.filterMap_cons, h hd (List.mem_cons_self hd tl),
      List.map_cons, ih (fun x hx => h x (List.mem_cons_of_mem hd hx))]

/-! Lemmas about the codec and the restore path. -/

theorem restoredDoc_state_not_live (sd : SavedDoc) :
    (DocumentStore.restoredDoc sd).state ≠ .PARSED ∧
      (DocumentStore.restoredDoc sd).state ≠ .PARSING := by
  rcases sd with ⟨d, s, m, a, e⟩
  cases s <;> simp [DocumentStore.restoredDoc]

theorem loadDocuments_save (docs : List (String × Document)) :
    loadDocuments (some (saveDocuments docs)) =
      (some ((docs.map (fun p => (p.1, canonicalDoc p.2))).filterMap
          validateDocEntry),
       some (saveDocuments docs)) := rfl

theorem loadSessions_save (sessions : List (String × Session))
    (a : Option String) :
    loadSessions (some (saveSessions sessions a)) =
      (some ((sessions.map (fun p => (p.1, canonicalSession p.2))).filter
          validSessionEntry, a),
       some (saveSessions sessions a)) := rfl

theorem loadMessages_save (d : List (String × List ChatMessage)) :
    loadMessages (some (saveMessages d)) = (some d, some (saveMessages d)) :=
  rfl

theorem repairSavedDoc_eq_self {sd : SavedDoc} (h1 : sd.state ≠ .PARSING)
    (h2 : sd.state = .PARSED → truthyOptStr sd.parsedArtifactId = true) :
    repairSavedDoc sd = sd := by
  have hc1 : ¬(sd.state = .PARSED ∧ truthyOptStr sd.parsedArtifactId = false) := by
    rintro ⟨hp, hf⟩
    rw [h2 hp] at hf
    cases hf
  simp only [repairSavedDoc]
  rw [if_neg hc1, if_neg h1]

theorem keys_filterMap_validateDocEntry (l : List (String × SavedDoc)) :
    ((l.filterMap validateDocEntry).map Prod.fst).Sublist (l.map Prod.fst) := by
  induction l with
  | nil => simp
  | cons hd tl ih =>
    rw [List.filterMap_cons]
    cases hv : validateDocEntry hd with
    | none =>
      rw [List.map_cons]
      exact ih.cons hd.1
    | some q =>
      have hq : q.1 = hd.1 := by
        unfold validateDocEntry at hv
        split at hv
        · cases hv
          rfl
        · cases hv
      rw [List.map_cons, List.map_cons, hq]
      exact ih.cons₂ hd.1

/-- The Document Store invariant of the spec's §3/§8:
`state == PARSED ⇒ artifactId != null` for every document in the map. -/
def DocInv (st : DocumentStore.State) : Prop :=
  ∀ p ∈ st.documents, p.2.state = .PARSED → p.2.parsedArtifactId ≠ none

theorem applyOp_preserves_DocInv (st : DocumentStore.State)
    (op : DocumentStore.Op) (h : DocInv st) :
    DocInv (DocumentStore.applyOp st op) := by
  cases op with
  | add now file =>
    intro p hp hst
    simp only [DocumentStore.applyOp, DocumentStore.addDocument,
      DocumentStore.persist] at hp
    rcases mem_mset hp with h' | h'
    · exact h p h' hst
    · subst h'
      simp at hst
  | reupload docId file =>
    intro p hp hst
    simp only [DocumentStore.applyOp, DocumentStore.reuploadDocument] at hp
    cases hm : mget st.documents docId with
    | none =>
      rw [hm] at hp
      exact h p hp hst
    | some doc =>
      rw [hm] at hp
      simp only [DocumentStore.persist] at hp
      rcases mem_mset hp with h' | h'
      · exact h p h' hst
      · subst h'
        simp at hst
  | parseStart docId =>
    intro p hp hst
    simp only [DocumentStore.applyOp, DocumentStore.parseStart] at hp
    cases hm : mget st.documents docId with
    | none =>
      rw [hm] at hp
      exact h p hp hst
    | some doc =>
      simp only [hm] at hp
      by_cases hf : doc.file.isNone = true
      · rw [if_pos hf] at hp
        rcases mem_mset hp with h' | h'
        · exact h p h' hst
        · subst h'
          simp at hst
      · rw [if_neg hf] at hp
        by_cases hs : doc.state ≠ DocumentState.UPLOADED
        · rw [if_pos hs] at hp
          exact h p hp hst
        · rw [if_neg hs] at hp
          rcases mem_mset hp with h' | h'
          · exact h p h' hst
          · subst h'
            simp at hst
  | parseComplete docId reply =>
    intro p hp hst
    simp only [DocumentStore.applyOp, DocumentStore.parseComplete] at hp
    cases hm : mget st.documents docId with
    | none =>
      rw [hm] at hp
      exact h p hp hst
    | some doc =>
      rw [hm] at hp
      cases reply with
      | ok aid =>
        simp only [DocumentStore.persist] at hp
        rcases mem_mset hp with h' | h'
        · exact h p h' hst
        · subst h'
          simp
      | err msg =>
        simp only [DocumentStore.persist] at hp
        rcases mem_mset hp with h' | h'
        · exact h p h' hst
        · subst h'
          simp at hst
  | restore =>
    intro p hp hst
    simp only [DocumentStore.applyOp, DocumentStore.restore] at hp
    rcases hl : loadDocuments st.stored with ⟨res, slot⟩
    rw [hl] at hp
    cases res with
    | none =>
      exact h p hp hst
    | some docs =>
      simp only at hp
      rcases mem_foldl_mset DocumentStore.restoredDoc docs st.documents p hp
        with h' | ⟨q, _, hpq⟩
      · exact h p h' hst
      · rw [hpq] at hst
        exact absurd hst (restoredDoc_state_not_live q.2).1

/-- The Session Store invariant of the spec's §3/§8:
`activeDocumentId ∈ documentIds ∪ {null}` for every session in the map. -/
def SessInv (st : SessionStore.State) : Prop :=
  ∀ p ∈ st.sessions, ∀ d, p.2.activeDocumentId = some d →
    d ∈ p.2.activeDocumentIds

theorem applyOp_preserves_SessInv (st : SessionStore.State)
    (op : SessionStore.Op) (h : SessInv st) :
    SessInv (SessionStore.applyOp st op) := by
  cases op with
  | create now name =>
    intro p hp d hd
    simp only [SessionStore.applyOp, SessionStore.createSession,
      SessionStore.persist] at hp
    rcases mem_mset hp with h' | h'
    · exact h p h' d hd
    · subst h'
      simp at hd
  | setActiveSession sid =>
    intro p hp d hd
    simp only [SessionStore.applyOp, SessionStore.setActiveSession] at hp
    by_cases hm : (mget st.sessions sid).isSome = true
    · rw [if_pos hm] at hp
      exact h p hp d hd
    · rw [if_neg hm] at hp
      exact h p hp d hd
  | addDocumentToSession sid did =>
    intro p hp d hd
    simp only [SessionStore.applyOp, SessionStore.addDocumentToSession] at hp
    cases hm : mget st.sessions sid with
    | none =>
      rw [hm] at hp
      exact h p hp d hd
    | some session =>
      simp only [hm] at hp
      by_cases hmem : did ∈ session.activeDocumentIds
      · rw [if_pos hmem] at hp
        exact h p hp d hd
      · rw [if_neg hmem] at hp
        rcases mem_mset hp with h' | h'
        · exact h p h' d hd
        · subst h'
          simp only [Option.some.injEq] at hd
          subst hd
          simp
  | setActiveDocument sid did =>
    intro p hp d hd
    simp only [SessionStore.applyOp, SessionStore.setActiveDocument] at hp
    cases hm : mget st.sessions sid with
    | none =>
      rw [hm] at hp
      exact h p hp d hd
    | some session =>
      simp only [hm] at hp
      by_cases hmem : did ∈ session.activeDocumentIds
      · rw [if_pos hmem] at hp
        rcases mem_mset hp with h' | h'
        · exact h p h' d hd
        · subst h'
          simp only [Option.some.injEq] at hd
          subst hd
          exact hmem
      · rw [if_neg hmem] at hp
        exact h p hp d hd
  | restore =>
    intro p hp d hd
    simp only [SessionStore.applyOp, SessionStore.restore] at hp
    rcases hl : loadSessions st.stored with ⟨res, slot⟩
    rw [hl] at hp
    cases res with
    | none =>
      exact h p hp d hd
    | some pair =>
      rcases pair with ⟨sessions, activeId⟩
      simp only at hp
      rcases mem_foldl_mset SessionStore.sessionOfSaved sessions st.sessions p hp
        with h' | ⟨q, _, hpq⟩
      · exact h p h' d hd
      · rw [hpq] at hd
        simp [SessionStore.sessionOfSaved] at hd

theorem restore_fresh_eq (docs : List (String × Document))
    (hnd : (docs.map Prod.fst).Nodup) :
    (DocumentStore.restore { documents := [], stored := some (saveDocuments docs) }).documents =
      ((docs.map (fun p => (p.1, canonicalDoc p.2))).filterMap
          validateDocEntry).map
        (fun q => (q.1, DocumentStore.restoredDoc q.2)) := by
  have hkeys1 :
      ((docs.map (fun p => (p.1, canonicalDoc p.2))).map Prod.fst) =
        docs.map Prod.fst := by
    rw [List.map_map]
    rfl
  have hkeys :
      (((docs.map (fun p => (p.1, canonicalDoc p.2))).filterMap
          validateDocEntry).map Prod.fst).Nodup := by
    have hsub :=
      keys_filterMap_validateDocEntry (docs.map (fun p => (p.1, canonicalDoc p.2)))
    rw [hkeys1] at hsub
    exact hsub.nodup hnd
  have hfresh :
      ∀ q ∈ (docs.map (fun p => (p.1, canonicalDoc p.2))).filterMap
          validateDocEntry,
        mget ([] : List (String × Document)) q.1 = none := by
    intro q _
    rfl
  unfold DocumentStore.restore
  rw [loadDocuments_save]
  exact (foldl_mset_of_fresh DocumentStore.restoredDoc _ [] hfresh hkeys).trans
    (List.nil_append _)

/-! The claims. -/

/-- C1: the claim says `parseDocument` on a `PARSE_FAILED` document with a
non-null file handle transitions it to `PARSING` (an explicit retry) and
refuses only outside `UPLOADED`/`PARSE_FAILED`.  Evaluating the code on
exactly such a document: the guard at `stores.js` line 176 accepts only
`UPLOADED`, so the call returns failure and leaves the store — and the
document's `PARSE_FAILED` state — completely unchanged, even though the
file handle is present. -/
theorem c1_parse_failed_retry_is_refused :
    DocumentStore.parseDocument stRetry "1" (.ok "a1") = (stRetry, false) ∧
      (mget stRetry.documents "1").map Document.state =
        some DocumentState.PARSE_FAILED ∧
      (mget stRetry.documents "1").map Document.file = some (some fileA) := by
  refine ⟨?_, rfl, rfl⟩
  rfl

/-- C2: along every sequence of store operations — `addDocument`,
`reuploadDocument`, the synchronous start and the asynchronous completion
of `parseDocument`, and `restore` — every document in the map with
`state == PARSED` has a non-null artifact id. -/
theorem c2_parsed_implies_artifact (ops : List DocumentStore.Op) :
    DocInv (DocumentStore.run ops) := by
  suffices hstep : ∀ (l : List DocumentStore.Op) (st : DocumentStore.State),
      DocInv st → DocInv (l.foldl DocumentStore.applyOp st) by
    refine hstep ops DocumentStore.init ?_
    intro p hp hst
    simp [DocumentStore.init] at hp
  intro l
  induction l with
  | nil =>
    intro st h
    exact h
  | cons hd tl ih =>
    intro st h
    exact ih _ (applyOp_preserves_DocInv st hd h)

/-- Witness for C2: after an upload and a successful parse the resulting
`PARSED` document indeed carries a non-null artifact id. -/
theorem c2_parsed_implies_artifact_witness :
    ("7", docA) ∈ (DocumentStore.run opsA).documents ∧
      docA.state = DocumentState.PARSED ∧ docA.parsedArtifactId ≠ none :=
  ⟨by decide, by decide,
    c2_parsed_implies_artifact opsA ("7", docA) (by decide) (by decide)⟩

/-- C6: along every sequence of `createSession`, `addDocumentToSession`,
`setActiveDocument`, `setActiveSession` and `restore`, every session's
`activeDocumentId` is null or a member of its document-id list; and
`setActiveDocument` is a no-op (store unchanged) when the session is
unknown or the document id is not already a member of that list. -/
theorem c6_active_document_is_member :
    (∀ ops : List SessionStore.Op, SessInv (SessionStore.run ops)) ∧
      (∀ (st : SessionStore.State) (sid did : String) (session : Session),
        mget st.sessions sid = some session →
        did ∉ session.activeDocumentIds →
        SessionStore.setActiveDocument st sid did = st) ∧
      (∀ (st : SessionStore.State) (sid did : String),
        mget st.sessions sid = none →
        SessionStore.setActiveDocument st sid did = st) := by
  refine ⟨?_, ?_, ?_⟩
  · intro ops
    suffices hstep : ∀ (l : List SessionStore.Op) (st : SessionStore.State),
        SessInv st → SessInv (l.foldl SessionStore.applyOp st) by
      refine hstep ops SessionStore.init ?_
      intro p hp d hd
      simp [SessionStore.init] at hp
    intro l
    induction l with
    | nil =>
      intro st h
      exact h
    | cons hd tl ih =>
      intro st h
      exact ih _ (applyOp_preserves_SessInv st hd h)
  · intro st sid did session hm hmem
    unfold SessionStore.setActiveDocument
    simp only [hm]
    rw [if_neg hmem]
  · intro st sid did hm
    unfold SessionStore.setActiveDocument
    simp only [hm]

/-- Witness for C6: the session built by `opsS` has its auto-selected
document as a member, and `setActiveDocument` with a foreign id leaves a
concrete store untouched. -/
theorem c6_active_document_is_member_witness :
    (("3", sessA) ∈ (SessionStore.run opsS).sessions ∧
      "d1" ∈ sessA.activeDocumentIds) ∧
      SessionStore.setActiveDocument
          { sessions := [("3", sessA)], activeSessionId := some "3",
            stored := none } "3" "zz" =
        { sessions := [("3", sessA)], activeSessionId := some "3",
          stored := none } :=
  ⟨⟨by decide,
      c6_active_document_is_member.1 opsS ("3", sessA) (by decide) "d1" (by decide)⟩,
    c6_active_document_is_member.2.1
      { sessions := [("3", sessA)], activeSessionId := some "3", stored := none }
      "3" "zz" sessA (by decide) (by decide)⟩

/-- C7 counterexample: the claim says `parseDocument` on a `PARSED`
document leaves its state unchanged for any value of the file handle,
present or absent.  On a `PARSED` document with an absent file handle the
missing-file check (`stores.js` line 170) runs before the state guard and
rewrites the state to `REQUIRES_REUPLOAD`, so the state does change. -/
theorem c7_parsed_absent_file_changes_state :
    docParsedNoFile.state = DocumentState.PARSED ∧
      (mget (DocumentStore.parseDocument stParsedNoFile "1" (.ok "x")).1.documents
          "1").map Document.state = some DocumentState.REQUIRES_REUPLOAD ∧
      DocumentState.REQUIRES_REUPLOAD ≠ DocumentState.PARSED := by
  refine ⟨rfl, ?_, by decide⟩
  rfl

/-- C7 (amended): calling `parseDocument` on a `PARSED` document returns
failure and never touches the artifact id; when the file handle is present
the call is a complete no-op (store unchanged), but when the file handle is
absent the document's state becomes `REQUIRES_REUPLOAD`. -/
theorem c7_parse_on_parsed_returns_failure :
    ∀ (st : DocumentStore.State) (docId : String) (doc : Document)
      (reply : BackendReply),
      mget st.documents docId = some doc →
      doc.state = DocumentState.PARSED →
      (doc.file.isSome = true →
        DocumentStore.parseDocument st docId reply = (st, false)) ∧
      (doc.file = none →
        (DocumentStore.parseDocument st docId reply).2 = false ∧
        mget (DocumentStore.parseDocument st docId reply).1.documents docId =
          some { doc with state := DocumentState.REQUIRES_REUPLOAD }) := by
  intro st docId doc reply hm hstate
  constructor
  · intro hfile
    obtain ⟨a, ha⟩ := Option.isSome_iff_exists.mp hfile
    unfold DocumentStore.parseDocument DocumentStore.parseStart
    simp [hm, ha, hstate]
  · intro hfile
    unfold DocumentStore.parseDocument DocumentStore.parseStart
    simp [hm, hfile, DocumentStore.persist, mget_mset_self]

/-- Witness for C7 (amended): applied to a store holding a `PARSED`
document with a live file handle, and to one whose file handle is gone. -/
theorem c7_parse_on_parsed_returns_failure_witness :
    DocumentStore.parseDocument
        { documents := [("3", docParsedLive)], stored := none } "3" (.ok "x") =
      ({ documents := [("3", docParsedLive)], stored := none }, false) ∧
      mget (DocumentStore.parseDocument stParsedNoFile "1" (.ok "x")).1.documents
          "1" = some { docParsedNoFile with state := DocumentState.REQUIRES_REUPLOAD } :=
  ⟨(c7_parse_on_parsed_returns_failure
      { documents := [("3", docParsedLive)], stored := none } "3" docParsedLive
      (.ok "x") (by decide) (by decide)).1 (by decide),
   ((c7_parse_on_parsed_returns_failure stParsedNoFile "1" docParsedNoFile
      (.ok "x") (by decide) (by decide)).2 (by decide)).2⟩

/-- C8: `parseDocument` on a known document whose file handle is absent —
whatever its state — returns failure, sets the state to
`REQUIRES_REUPLOAD`, persists the new map to the substrate, and leaves the
document unqueryable. -/
theorem c8_parse_without_file_requires_reupload :
    ∀ (st : DocumentStore.State) (docId : String) (doc : Document)
      (reply : BackendReply),
      mget st.documents docId = some doc → doc.file = none →
      (DocumentStore.parseDocument st docId reply).2 = false ∧
      mget (DocumentStore.parseDocument st docId reply).1.documents docId =
        some { doc with state := DocumentState.REQUIRES_REUPLOAD } ∧
      (DocumentStore.parseDocument st docId reply).1.stored =
        some (saveDocuments
          (DocumentStore.parseDocument st docId reply).1.documents) ∧
      DocumentStore.isQueryable
        (DocumentStore.parseDocument st docId reply).1.documents docId = false := by
  intro st docId doc reply hm hfile
  unfold DocumentStore.parseDocument DocumentStore.parseStart
    DocumentStore.isQueryable
  simp [hm, hfile, DocumentStore.persist, mget_mset_self]

/-- Witness for C8: a concrete `UPLOADED` document with no file handle. -/
theorem c8_parse_without_file_requires_reupload_witness :
    (DocumentStore.parseDocument
        { documents := [("4", docNoFile)], stored := none } "4" (.err "x")).2 =
      false ∧
      DocumentStore.isQueryable
        (DocumentStore.parseDocument
          { documents := [("4", docNoFile)], stored := none } "4"
          (.err "x")).1.documents "4" = false :=
  ⟨(c8_parse_without_file_requires_reupload
      { documents := [("4", docNoFile)], stored := none } "4" docNoFile
      (.err "x") (by decide) (by decide)).1,
   (c8_parse_without_file_requires_reupload
      { documents := [("4", docNoFile)], stored := none } "4" docNoFile
      (.err "x") (by decide) (by decide)).2.2.2⟩

/-- C3: a document persisted while `PARSING` (provided it passes the
structural validation: non-empty entry key and `docId`) comes back from a
save/restore cycle as `PARSE_FAILED` with the fixed non-null
interrupted-by-reload `parseError`; and no document in the restored map is
ever `PARSING`. -/
theorem c3_parsing_never_survives_restore :
    ∀ (docs : List (String × Document)) (id : String) (doc : Document),
      (docs.map Prod.fst).Nodup →
      (id, doc) ∈ docs → doc.state = DocumentState.PARSING →
      truthyStr id = true → truthyStr doc.docId = true →
      (id, { docId := doc.docId, state := DocumentState.PARSE_FAILED,
             metadata := doc.metadata, file := none,
             parsedArtifactId := doc.parsedArtifactId,
             parseError := some "Parsing interrupted by page reload",
             requiresReupload := false }) ∈
          (DocumentStore.restore
            { documents := [], stored := some (saveDocuments docs) }).documents ∧
      (∀ p ∈ (DocumentStore.restore
            { documents := [], stored := some (saveDocuments docs) }).documents,
          p.2.state ≠ DocumentState.PARSING) := by
  intro docs id doc hnd hmem hstate hid hdid
  constructor
  · rw [restore_fresh_eq docs hnd]
    have h1 : (id, canonicalDoc doc) ∈
        docs.map (fun p => (p.1, canonicalDoc p.2)) :=
      List.mem_map_of_mem _ hmem
    have h2 : validateDocEntry (id, canonicalDoc doc) =
        some (id, repairSavedDoc (canonicalDoc doc)) := by
      simp [validateDocEntry, canonicalDoc, hid, hdid]
    have h3 : (id, repairSavedDoc (canonicalDoc doc)) ∈
        (docs.map (fun p => (p.1, canonicalDoc p.2))).filterMap
          validateDocEntry :=
      List.mem_filterMap.mpr ⟨(id, canonicalDoc doc), h1, h2⟩
    have h4 := List.mem_map_of_mem
      (fun q => (q.1, DocumentStore.restoredDoc q.2)) h3
    have h5 : DocumentStore.restoredDoc (repairSavedDoc (canonicalDoc doc)) =
        { docId := doc.docId, state := DocumentState.PARSE_FAILED,
          metadata := doc.metadata, file := none,
          parsedArtifactId := doc.parsedArtifactId,
          parseError := some "Parsing interrupted by page reload",
          requiresReupload := false } := by
      simp [repairSavedDoc, canonicalDoc, DocumentStore.restoredDoc, hstate]
    simpa only [h5] using h4
  · intro p hp
    rw [restore_fresh_eq docs hnd] at hp
    rcases List.mem_map.mp hp with ⟨q, _, hpq⟩
    rw [← hpq]
    exact (restoredDoc_state_not_live q.2).2

/-- Witness for C3: the mid-parse fixture comes back `PARSE_FAILED` with
the interrupted-by-reload error. -/
theorem c3_parsing_never_survives_restore_witness :
    ("2", { docId := "2", state := DocumentState.PARSE_FAILED,
            metadata := metaA, file := none, parsedArtifactId := none,
            parseError := some "Parsing interrupted by page reload",
            requiresReupload := false }) ∈
      (DocumentStore.restore
        { documents := [],
          stored := some (saveDocuments [("2", docMidParse)]) }).documents :=
  (c3_parsing_never_survives_restore [("2", docMidParse)] "2" docMidParse
    (by decide) (by decide) (by decide) (by decide) (by decide)).1

/-- C5: immediately after `restore()` on a fresh Document Store no document
is `PARSED` or `PARSING` (whatever the substrate holds), `isQueryable` is
false for every id, and a document persisted as `PARSED` with a valid
(truthy) artifact id — passing validation — comes back as
`REQUIRES_REUPLOAD` because the file handle is always null after a
restore. -/
theorem c5_restore_is_never_queryable :
    ∀ slot : Option StoredDocs,
      (∀ p ∈ (DocumentStore.restore
            { documents := [], stored := slot }).documents,
          p.2.state ≠ DocumentState.PARSED ∧
            p.2.state ≠ DocumentState.PARSING) ∧
      (∀ docId, DocumentStore.isQueryable
          (DocumentStore.restore { documents := [], stored := slot }).documents
          docId = false) ∧
      (∀ (docs : List (String × Document)) (id : String) (doc : Document),
          slot = some (saveDocuments docs) → (docs.map Prod.fst).Nodup →
          (id, doc) ∈ docs → doc.state = DocumentState.PARSED →
          truthyOptStr doc.parsedArtifactId = true →
          truthyStr id = true → truthyStr doc.docId = true →
          (id, { docId := doc.docId, state := DocumentState.REQUIRES_REUPLOAD,
                 metadata := doc.metadata, file := none,
                 parsedArtifactId := doc.parsedArtifactId,
                 parseError := doc.parseError, requiresReupload := false }) ∈
            (DocumentStore.restore
              { documents := [], stored := slot }).documents) := by
  intro slot
  have hshape : ∀ p ∈ (DocumentStore.restore
      { documents := [], stored := slot }).documents,
      ∃ sd : SavedDoc, p.2 = DocumentStore.restoredDoc sd := by
    intro p hp
    unfold DocumentStore.restore at hp
    rcases hl : loadDocuments slot with ⟨res, slot'⟩
    rw [hl] at hp
    cases res with
    | none => cases hp
    | some docs =>
      rcases mem_foldl_mset DocumentStore.restoredDoc docs [] p hp
        with h' | ⟨q, _, hpq⟩
      · cases h'
      · exact ⟨q.2, by rw [hpq]⟩
  have hnolive : ∀ p ∈ (DocumentStore.restore
      { documents := [], stored := slot }).documents,
      p.2.state ≠ DocumentState.PARSED ∧
        p.2.state ≠ DocumentState.PARSING := by
    intro p hp
    obtain ⟨sd, hsd⟩ := hshape p hp
    rw [hsd]
    exact restoredDoc_state_not_live sd
  refine ⟨hnolive, ?_, ?_⟩
  · intro docId
    unfold DocumentStore.isQueryable
    cases hg : mget (DocumentStore.restore
        { documents := [], stored := slot }).documents docId with
    | none => simp only [hg]
    | some doc =>
      have hg' := hg
      unfold mget at hg'
      obtain ⟨p0, hfind, hsnd⟩ := Option.map_eq_some'.mp hg'
      have hp0 := List.mem_of_find?_eq_some hfind
      have hne : doc.state ≠ DocumentState.PARSED := by
        rw [← hsnd]
        exact (hnolive p0 hp0).1
      have hb : (doc.state == DocumentState.PARSED) = false := by
        rw [beq_eq_false_iff_ne]
        exact hne
      simp only [hg, hb, Bool.false_and]
  · intro docs id doc hslot hnd hmem hstate hart hid hdid
    subst hslot
    rw [restore_fresh_eq docs hnd]
    have h1 : (id, canonicalDoc doc) ∈
        docs.map (fun p => (p.1, canonicalDoc p.2)) :=
      List.mem_map_of_mem _ hmem
    have h2 : validateDocEntry (id, canonicalDoc doc) =
        some (id, repairSavedDoc (canonicalDoc doc)) := by
      simp [validateDocEntry, canonicalDoc, hid, hdid]
    have h3 : (id, repairSavedDoc (canonicalDoc doc)) ∈
        (docs.map (fun p => (p.1, canonicalDoc p.2))).filterMap
          validateDocEntry :=
      List.mem_filterMap.mpr ⟨(id, canonicalDoc doc), h1, h2⟩
    have h4 := List.mem_map_of_mem
      (fun q => (q.1, DocumentStore.restoredDoc q.2)) h3
    have h5 : DocumentStore.restoredDoc (repairSavedDoc (canonicalDoc doc)) =
        { docId := doc.docId, state := DocumentState.REQUIRES_REUPLOAD,
          metadata := doc.metadata, file := none,
          parsedArtifactId := doc.parsedArtifactId,
          parseError := doc.parseError, requiresReupload := false } := by
      simp [repairSavedDoc, canonicalDoc, DocumentStore.restoredDoc, hstate,
        hart]
    simpa only [h5] using h4

/-- Witness for C5: restoring a substrate holding one `PARSED` document
with artifact id yields a `REQUIRES_REUPLOAD` document that is not
queryable. -/
theorem c5_restore_is_never_queryable_witness :
    DocumentStore.isQueryable
        (DocumentStore.restore
          { documents := [],
            stored := some (saveDocuments [("3", docParsedLive)]) }).documents
        "3" = false ∧
      ("3", { docId := "3", state := DocumentState.REQUIRES_REUPLOAD,
              metadata := metaA, file := none, parsedArtifactId := some "a1",
              parseError := none, requiresReupload := false }) ∈
        (DocumentStore.restore
          { documents := [],
            stored := some (saveDocuments [("3", docParsedLive)]) }).documents :=
  ⟨(c5_restore_is_never_queryable
      (some (saveDocuments [("3", docParsedLive)]))).2.1 "3",
   (c5_restore_is_never_queryable
      (some (saveDocuments [("3", docParsedLive)]))).2.2
      [("3", docParsedLive)] "3" docParsedLive rfl (by decide) (by decide)
      (by decide) (by decide) (by decide) (by decide)⟩

/-- C4 counterexample: the claim says a well-formed Session snapshot's
`activeDocumentId` survives the codec's save/load round trip.  It cannot:
`saveSessions` (`storage.js` 18-27) serializes an explicit field list that
omits `activeDocumentId`, so the loaded record carries none — here a
session saved with `activeDocumentId = "d1"` comes back with a null active
document, while every other canonical field survives. -/
theorem c4_active_document_not_round_tripped :
    (loadSessions (some (saveSessions [("s1", sessB)] (some "s1")))).1 =
      some ([("s1", canonicalSession sessB)], some "s1") ∧
      sessB.activeDocumentId = some "d1" ∧
      (SessionStore.sessionOfSaved (canonicalSession sessB)).activeDocumentId =
        none ∧
      (SessionStore.sessionOfSaved (canonicalSession sessB)).activeDocumentId ≠
        sessB.activeDocumentId :=
  ⟨rfl, rfl, rfl, by decide⟩

/-- C4 (amended): a well-formed snapshot of each family round-trips through
the codec with all canonical fields reproduced — in particular a document's
state, metadata, artifactId and parseError, and a chat log verbatim — with
two exceptions: the file handle round-trips to null, and a session's
`activeDocumentId` is not persisted at all and round-trips to null.
Well-formed means: non-empty entry keys and entity ids (and session names),
document state not `PARSING`, and `PARSED` only with a truthy artifact
id — exactly the entries the loaders accept without repair. -/
theorem c4_codec_round_trip :
    (∀ (l : List (String × Session)) (a : Option String),
      (∀ p ∈ l, truthyStr p.1 = true ∧ truthyStr p.2.sessionId = true ∧
          truthyStr p.2.name = true) →
      (loadSessions (some (saveSessions l a))).1 =
        some (l.map (fun p => (p.1, canonicalSession p.2)), a) ∧
      (∀ p ∈ l, SessionStore.sessionOfSaved (canonicalSession p.2) =
          { p.2 with activeDocumentId := none })) ∧
      (∀ l : List (String × Document),
        (∀ p ∈ l, truthyStr p.1 = true ∧ truthyStr p.2.docId = true ∧
            p.2.state ≠ DocumentState.PARSING ∧
            (p.2.state = DocumentState.PARSED →
              truthyOptStr p.2.parsedArtifactId = true)) →
        (loadDocuments (some (saveDocuments l))).1 =
          some (l.map (fun p => (p.1, canonicalDoc p.2)))) ∧
      (∀ sd : SavedDoc, (DocumentStore.restoredDoc sd).file = none) ∧
      (∀ d : List (String × List ChatMessage),
        loadMessages (some (saveMessages d)) =
          (some d, some (saveMessages d))) := by
  refine ⟨?_, ?_, ?_, ?_⟩
  · intro l a h
    constructor
    · rw [loadSessions_save]
      have hfilter : (l.map (fun p => (p.1, canonicalSession p.2))).filter
          validSessionEntry = l.map (fun p => (p.1, canonicalSession p.2)) := by
        rw [List.filter_eq_self]
        intro x hx
        rcases List.mem_map.mp hx with ⟨p, hp, hxp⟩
        rcases h p hp with ⟨h1, h2, h3⟩
        rw [← hxp]
        simp [validSessionEntry, canonicalSession, h1, h2, h3]
      rw [hfilter]
    · intro p _
      rfl
  · intro l h
    rw [loadDocuments_save]
    rw [filterMap_map_eq_map validateDocEntry
      (fun p => (p.1, canonicalDoc p.2)) (fun p => (p.1, canonicalDoc p.2)) l]
    intro x hx
    rcases h x hx with ⟨h1, h2, h3, h4⟩
    have hrepair : repairSavedDoc (canonicalDoc x.2) = canonicalDoc x.2 :=
      repairSavedDoc_eq_self h3 h4
    have h2' : truthyStr (canonicalDoc x.2).docId = true := h2
    simp [validateDocEntry, h1, h2', hrepair]
  · intro sd
    rcases sd with ⟨a, b, c, d, e⟩
    cases b <;> rfl
  · intro d
    rfl

/-- Witness for C4 (amended): round trips of concrete session, document and
chat snapshots. -/
theorem c4_codec_round_trip_witness :
    (loadSessions (some (saveSessions [("3", sessA)] (some "3")))).1 =
      some ([("3", canonicalSession sessA)], some "3") ∧
      (loadDocuments (some (saveDocuments [("3", docParsedLive)]))).1 =
        some [("3", canonicalDoc docParsedLive)] ∧
      loadMessages (some (saveMessages [("S", [msgHi])])) =
        (some [("S", [msgHi])], some (saveMessages [("S", [msgHi])])) :=
  ⟨(c4_codec_round_trip.1 [("3", sessA)] (some "3") (by decide)).1,
   c4_codec_round_trip.2.1 [("3", docParsedLive)] (by decide),
   c4_codec_round_trip.2.2.2 [("S", [msgHi])]⟩

theorem heapRead_concat (h : List (List ChatMessage)) (c : List ChatMessage) :
    ChatStore.heapRead (h ++ [c]) h.length = c := by
  unfold ChatStore.heapRead
  rw [List.getD_eq_getElem?_getD, List.getElem?_concat_length]
  rfl

theorem heapRead_append_lt (h tail : List (List ChatMessage)) (r : Nat)
    (hr : r < h.length) :
    ChatStore.heapRead (h ++ tail) r = ChatStore.heapRead h r := by
  unfold ChatStore.heapRead
  rw [List.getD_eq_getElem?_getD, List.getD_eq_getElem?_getD,
    List.getElem?_append_left hr]

theorem heapRead_set_ne (h : List (List ChatMessage)) (r r' : Nat)
    (l : List ChatMessage) (hne : r ≠ r') :
    ChatStore.heapRead (ChatStore.heapWrite h r l) r' =
      ChatStore.heapRead h r' := by
  unfold ChatStore.heapRead ChatStore.heapWrite
  rw [List.getD_eq_getElem?_getD, List.getD_eq_getElem?_getD,
    List.getElem?_set_ne hne]

theorem heapRead_set_self (h : List (List ChatMessage)) (r : Nat)
    (l : List ChatMessage) (hr : r < h.length) :
    ChatStore.heapRead (ChatStore.heapWrite h r l) r = l := by
  unfold ChatStore.heapRead ChatStore.heapWrite
  rw [List.getD_eq_getElem?_getD, List.getElem?_set_self hr]
  rfl

theorem mget_some_bound {sm : List (String × Nat)}
    {heap : List (List ChatMessage)}
    (hwf : ChatStore.WF ⟨sm, heap, false, none⟩)
    {sid : String} {r : Nat} (hm : mget sm sid = some r) : r < heap.length := by
  unfold mget at hm
  obtain ⟨p0, hfind, hsnd⟩ := Option.map_eq_some'.mp hm
  exact hsnd ▸ hwf p0 (List.mem_of_find?_eq_some hfind)

/-- C9: `getMessages` returns the session's store-owned log (built in
insertion order by `addMessage`, which appends) as a defensive copy: the
returned array is a fresh allocation, so overwriting it with any contents
leaves every store-owned log — hence every subsequent `getMessages` — as it
was; and `addMessage` appends exactly one timestamped message to the log. -/
theorem c9_getMessages_defensive_copy :
    ∀ (st : ChatStore.State) (sid : String),
      ChatStore.WF st →
      ChatStore.heapRead (ChatStore.getMessages st sid).1.heap
          (ChatStore.getMessages st sid).2 = ChatStore.msgLog st sid ∧
      (∀ (l : List ChatMessage) (sid2 : String),
        ChatStore.msgLog
          { (ChatStore.getMessages st sid).1 with
              heap := ChatStore.heapWrite
                (ChatStore.getMessages st sid).1.heap
                (ChatStore.getMessages st sid).2 l } sid2 =
          ChatStore.msgLog st sid2) ∧
      (∀ (role content : String) (ev : Option String) (now : Nat),
        sid ≠ "" →
        ChatStore.msgLog (ChatStore.addMessage st sid role content ev now).1
            sid =
          ChatStore.msgLog st sid ++
            [{ id := Nat.repr now, role := role, content := content,
               evidence := ev, createdAt := now }]) := by
  intro st sid hwf
  obtain ⟨sm, heap, b, so⟩ := st
  have hwf' : ChatStore.WF ⟨sm, heap, false, none⟩ := hwf
  refine ⟨?_, ?_, ?_⟩
  · exact heapRead_concat heap _
  · intro l sid2
    by_cases h2 : sid2 = ""
    · simp [ChatStore.msgLog, h2]
    · simp only [ChatStore.getMessages, ChatStore.alloc, ChatStore.msgLog,
        if_neg h2]
      cases hm2 : mget sm sid2 with
      | none => simp [hm2]
      | some r2 =>
        have hr2 := mget_some_bound hwf' hm2
        simp only [hm2, Option.map_some', Option.getD_some]
        rw [heapRead_set_ne _ _ _ _ (Nat.ne_of_gt hr2),
          heapRead_append_lt heap _ r2 hr2]
  · intro role content ev now hsid
    cases hm : mget sm sid with
    | some r =>
      have hr := mget_some_bound hwf' hm
      simp only [ChatStore.addMessage, ChatStore.persist, ChatStore.msgLog,
        if_neg hsid, hm]
      simp only [Option.map_some', Option.getD_some]
      rw [heapRead_set_self heap r _ hr]
    | none =>
      simp only [ChatStore.addMessage, ChatStore.persist, ChatStore.msgLog,
        ChatStore.alloc, if_neg hsid, hm, mget_mset_self]
      simp only [Option.map_some', Option.getD_some, Option.map_none',
        Option.getD_none]
      rw [heapRead_concat heap ([] : List ChatMessage)]
      rw [heapRead_set_self (heap ++ [[]]) heap.length _ (by simp)]

/-- Witness for C9: two messages added to a fresh store come back from
`getMessages` in insertion order, and clobbering the returned array does
not change what a later `getMessages` reports. -/
theorem c9_getMessages_defensive_copy_witness :
    (ChatStore.heapRead
        (ChatStore.getMessages
          (ChatStore.addMessage
            (ChatStore.addMessage ChatStore.init "S" "user" "hi" none 10).1
            "S" "assistant" "hello" none 11).1 "S").1.heap
        (ChatStore.getMessages
          (ChatStore.addMessage
            (ChatStore.addMessage ChatStore.init "S" "user" "hi" none 10).1
            "S" "assistant" "hello" none 11).1 "S").2 =
      [{ id := "10", role := "user", content := "hi", evidence := none,
         createdAt := 10 },
       { id := "11", role := "assistant", content := "hello",
         evidence := none, createdAt := 11 }]) ∧
      (∀ l : List ChatMessage,
        ChatStore.msgLog
          { (ChatStore.getMessages
              (ChatStore.addMessage
                (ChatStore.addMessage ChatStore.init "S" "user" "hi" none
                  10).1 "S" "assistant" "hello" none 11).1 "S").1 with
              heap := ChatStore.heapWrite
                (ChatStore.getMessages
                  (ChatStore.addMessage
                    (ChatStore.addMessage ChatStore.init "S" "user" "hi" none
                      10).1 "S" "assistant" "hello" none 11).1 "S").1.heap
                (ChatStore.getMessages
                  (ChatStore.addMessage
                    (ChatStore.addMessage ChatStore.init "S" "user" "hi" none
                      10).1 "S" "assistant" "hello" none 11).1 "S").2 l }
          "S" =
          ChatStore.msgLog
            (ChatStore.addMessage
              (ChatStore.addMessage ChatStore.init "S" "user" "hi" none 10).1
              "S" "assistant" "hello" none 11).1 "S") := by
  have h := c9_getMessages_defensive_copy
    (ChatStore.addMessage
      (ChatStore.addMessage ChatStore.init "S" "user" "hi" none 10).1
      "S" "assistant" "hello" none 11).1 "S"
    (by unfold ChatStore.WF; decide)
  exact ⟨h.1.trans (by decide), fun l => h.2.1 l "S"⟩

/-- C10: for each entity family the codec's load returns null when no data
is stored, when the stored string is malformed JSON (the `JSON.parse`
exception is caught — the substrate is left untouched and nothing
propagates to the caller), and when the version tag is absent or older
than the current schema version — in which case the stale entry is removed
from the substrate as a side effect. -/
theorem c10_load_null_cases :
    (loadSessions none = (none, none) ∧ loadDocuments none = (none, none) ∧
        loadMessages none = (none, none)) ∧
      (loadSessions (some .malformed) = (none, some .malformed) ∧
        loadDocuments (some .malformed) = (none, some .malformed) ∧
        loadMessages (some .malformed) = (none, some .malformed)) ∧
      (∀ (v : Option Nat) (ss : Option (List (String × SavedSession)))
          (a : Option String), versionBad v = true →
        loadSessions (some (.data v ss a)) = (none, none)) ∧
      (∀ (v : Option Nat) (ds : Option (List (String × SavedDoc))),
        versionBad v = true →
        loadDocuments (some (.data v ds)) = (none, none)) ∧
      (∀ (v : Option Nat) (ms : Option (List (String × List ChatMessage))),
        versionBad v = true →
        loadMessages (some (.data v ms)) = (none, none)) ∧
      (∀ (slot : Option StoredSessions) (e : String),
        loadSessionsBody slot = .error e → loadSessions slot = (none, slot)) ∧
      (∀ (slot : Option StoredDocs) (e : String),
        loadDocumentsBody slot = .error e → loadDocuments slot = (none, slot)) ∧
      (∀ (slot : Option StoredMsgs) (e : String),
        loadMessagesBody slot = .error e → loadMessages slot = (none, slot)) := by
  refine ⟨⟨rfl, rfl, rfl⟩, ⟨rfl, rfl, rfl⟩, ?_, ?_, ?_, ?_, ?_, ?_⟩
  · intro v ss a hv
    simp [loadSessions, loadSessionsBody, hv]
  · intro v ds hv
    simp [loadDocuments, loadDocumentsBody, hv]
  · intro v ms hv
    simp [loadMessages, loadMessagesBody, hv]
  · intro slot e he
    unfold loadSessions
    rw [he]
  · intro slot e he
    unfold loadDocuments
    rw [he]
  · intro slot e he
    unfold loadMessages
    rw [he]

/-- Witness for C10: an absent version tag on each family returns null and
clears the slot; the malformed slot raises inside the body and the outer
load still returns null with the slot untouched. -/
theorem c10_load_null_cases_witness :
    loadSessions (some (.data none none none)) = (none, none) ∧
      loadDocuments (some (.data none none)) = (none, none) ∧
      loadMessages (some (.data (some 1) none)) = (none, none) ∧
      loadDocuments (some .malformed) = (none, some .malformed) :=
  ⟨c10_load_null_cases.2.2.1 none none none (by decide),
   c10_load_null_cases.2.2.2.1 none none (by decide),
   c10_load_null_cases.2.2.2.2.1 (some 1) none (by decide),
   c10_load_null_cases.2.2.2.2.2.2.1 (some .malformed) "SyntaxError" rfl⟩

end DocsGPT
